import Mathlib

/-!
Verification of the release-automation pipeline of the npm package
`create-python-modern` (scripts/release.js, class ReleaseManager).

The pipeline is a sequential state machine: eleven named steps run in fixed
order against ambient external state (git working tree, package manifest,
npm registries).  A hard failure aborts the remaining steps; the report
generation step runs on every exit path.  We embed the ReleaseManager class
shallowly: the ambient external world is an explicit `Env` record fixed for
the duration of one run, the mutable `this.report` / `this.warnings` /
`this.errors` fields become the `St` record, and every external command the
script would execute is recorded as an `Effect` in an ordered trace, so that
claims about "no publish attempt happened" or "exactly one report file is
written" become statements about the trace.  The embedding follows the
corrected ReleaseManager variant shipped in the repository (the one whose
versioning and commit-and-tag steps test the output of the tag-listing
command, whose push step treats both pushes as fatal, and whose top-level
catch records the error before generating the report).
-/

namespace Release

/-- Characters of a string split at a separator character, mirroring the
JavaScript `String.prototype.split` used by the script (`split('\n')`,
`split('.')`): the result always has one more piece than there are
separators, and empty pieces are kept. -/
def splitChAux (sep : Char) : List Char → List (List Char)
  | [] => [[]]
  | c :: cs =>
    if c = sep then [] :: splitChAux sep cs
    else
      match splitChAux sep cs with
      | l :: ls => (c :: l) :: ls
      | [] => [[c]]

/-- String-level split at a separator character (JavaScript `split(sep)`). -/
def splitCh (sep : Char) (s : String) : List String :=
  (splitChAux sep s.data).map String.mk

/-- Lines of a string, mirroring the script's `changelog.split('\n')`. -/
def splitLines (s : String) : List String :=
  splitCh '\n' s

/-- Joining with a separator, mirroring JavaScript `Array.prototype.join`. -/
def joinWith (sep : String) : List String → String
  | [] => ""
  | [a] => a
  | a :: b :: rest => a ++ sep ++ joinWith sep (b :: rest)

/-- Test used by the pre-verification step: the manifest version must match
the regular expression `^\d+\.\d+\.\d+$` (three nonempty runs of digits
separated by dots). -/
def semverOk (s : String) : Bool :=
  match splitCh '.' s with
  | [a, b, c] =>
    a.length > 0 && a.data.all Char.isDigit &&
    (b.length > 0 && b.data.all Char.isDigit) &&
    (c.length > 0 && c.data.all Char.isDigit)
  | _ => false

/-- Value of a run of decimal digits. -/
def digitsToNat (cs : List Char) : Nat :=
  cs.foldl (fun n c => n * 10 + (c.toNat - 48)) 0

/-- Decimal parse of a nonempty all-digit string. -/
def parseNatStr (s : String) : Option Nat :=
  if s.length > 0 && s.data.all Char.isDigit then some (digitsToNat s.data) else none

/-- Numeric components of a `X.Y.Z` version string. -/
def parseSemver (s : String) : Option (Nat × Nat × Nat) :=
  match splitCh '.' s with
  | [a, b, c] =>
    match parseNatStr a, parseNatStr b, parseNatStr c with
    | some x, some y, some z => some (x, y, z)
    | _, _, _ => none
  | _ => none

/-- Modelled from the behaviour of the external command
`npm version <kind> --no-git-tag-version` that the versioning step shells
out to: for the three standard release kinds it bumps the respective
semantic-version component (resetting the lower ones); any other argument
is rejected by npm and the command fails.  The script itself performs no
validation of the kind argument and passes it through verbatim. -/
def npmVersionResult (v kind : String) : Option String :=
  match parseSemver v with
  | none => none
  | some (x, y, z) =>
    if kind = "patch" then some (toString x ++ "." ++ toString y ++ "." ++ toString (z + 1))
    else if kind = "minor" then some (toString x ++ "." ++ toString (y + 1) ++ ".0")
    else if kind = "major" then some (toString (x + 1) ++ ".0.0")
    else none

/-- JavaScript template-literal interpolation of a possibly-null value
(`${x}` renders `null` when the field was never set). -/
def optStr : Option String → String
  | some v => v
  | none => "null"

/-- External commands and file writes the script performs, in order.  Query
effects are read-only; the others mutate the working tree, the git history,
or remote state.  Progress logging is represented by the per-step banner. -/
inductive Effect where
  | stepBanner (n : Nat)
  | gitBranchQuery
  | gitStatusQuery
  | npmPkgFix
  | npmCi
  | npmTest
  | npmRunBuild
  | gitTagQuery (pat : String)
  | npmVersionCmd (cmd : String)
  | gitDescribeQuery
  | gitLogQuery
  | gitDiffCachedQuery
  | changelogWrite (content : String)
  | gitAddAll
  | gitCommit (msg : String)
  | gitCommitNoVerify (msg : String)
  | gitTagCreate (tag : String)
  | gitPushBranch (branch : String)
  | gitPushTags
  | npmPublish
  | npmPublishGitHub
  | npmViewQuery
  | reportWrite (content : String)
  deriving DecidableEq, Repr

/-- Does this effect write the report file? -/
def Effect.isReportWrite : Effect → Bool
  | .reportWrite _ => true
  | _ => false

/-- Is this effect a publish attempt against a registry? -/
def Effect.isPublish : Effect → Bool
  | .npmPublish => true
  | .npmPublishGitHub => true
  | _ => false

/-- Is this effect the creation of a git tag? -/
def Effect.isTagCreate : Effect → Bool
  | .gitTagCreate _ => true
  | _ => false

/-- Release mutations: effects that change the working tree, the git
repository, or remote state (as opposed to read-only queries, progress
banners, and the unconditional report file). -/
def Effect.isMutation : Effect → Bool
  | .npmPkgFix => true
  | .npmCi => true
  | .npmRunBuild => true
  | .npmVersionCmd _ => true
  | .changelogWrite _ => true
  | .gitAddAll => true
  | .gitCommit _ => true
  | .gitCommitNoVerify _ => true
  | .gitTagCreate _ => true
  | .gitPushBranch _ => true
  | .gitPushTags => true
  | .npmPublish => true
  | .npmPublishGitHub => true
  | _ => false

/-- The ambient external state a single run operates against, together with
the outcomes of the external commands the run will issue.  It is fixed for
the duration of one run (the script assumes exclusive access). -/
structure Env where
  branch : String
  dirtyAtStart : Bool
  manifestVersion : String
  tags : List String
  npmCiOk : Bool
  npmTestOk : Bool
  hasBuildScript : Bool
  buildOk : Bool
  lastTag : Option String
  commitsSinceLastTag : List String
  stagedFiles : List String
  changelog : String
  today : String
  timestamp : String
  commitOk : Bool
  commitErrMentionsPreCommit : Bool
  pushBranchOk : Bool
  pushTagsOk : Bool
  headSha : String
  npmToken : Option String
  npmPublishOk : Bool
  pkgName : String
  npmrc : Option String
  ghPublishOk : Bool
  registryVersion : Option String
  pkgInfoQueryOk : Bool
  pkgInfoText : String
  deriving Repr

/-- The mutable state of a ReleaseManager instance: the `warnings` and
`errors` arrays and the `report` object fields the steps touch.
`treeChanged` tracks whether a file write of this run has left uncommitted
changes in the (initially clean) working tree, which is what the
`git status --porcelain` check of the commit step observes. -/
structure St where
  warnings : List String
  errors : List String
  currentBranch : Option String
  version : Option String
  commitSha : Option String
  issues : List String
  solutions : List String
  registryUrls : List String
  packageInfo : Option String
  status : String
  treeChanged : Bool
  deriving DecidableEq, Repr

/-- State of a freshly constructed ReleaseManager. -/
def initSt : St :=
  { warnings := [], errors := [], currentBranch := none, version := none
    commitSha := none, issues := [], solutions := [], registryUrls := []
    packageInfo := none, status := "pending", treeChanged := false }

/-- Result of running a step (or a sequence of steps): the effects issued,
the state afterwards, and the hard-failure message if one was thrown. -/
structure StepOut where
  trace : List Effect
  st : St
  err : Option String
  deriving Repr

/-- Sequencing with hard-failure short-circuit: once a step has thrown, the
remaining steps are skipped. -/
def bindStep (o : StepOut) (f : St → StepOut) : StepOut :=
  match o.err with
  | some _ => o
  | none =>
    let o2 := f o.st
    ⟨o.trace ++ o2.trace, o2.st, o2.err⟩

/-- Step 1, pre-verification: requires the branch to be `master` or `main`
and the working tree to be clean, then normalizes the manifest
(`npm pkg fix`, an in-place write) and requires the manifest version to
match `^\d+\.\d+\.\d+$`, recording it into the state. -/
def preVerification (env : Env) (s : St) : StepOut :=
  let s1 := { s with currentBranch := some env.branch }
  if ¬ (env.branch = "master" ∨ env.branch = "main") then
    ⟨[.stepBanner 1, .gitBranchQuery], s1,
      some ("Rama actual es '" ++ env.branch ++ "'. Debe estar en 'master' o 'main'")⟩
  else if env.dirtyAtStart then
    ⟨[.stepBanner 1, .gitBranchQuery, .gitStatusQuery], s1,
      some "Hay cambios sin añadir. Por favor, añade o descarta los cambios antes de continuar."⟩
  else if ¬ semverOk env.manifestVersion then
    ⟨[.stepBanner 1, .gitBranchQuery, .gitStatusQuery, .npmPkgFix], s1,
      some ("Versión '" ++ env.manifestVersion ++ "' no sigue formato semver X.Y.Z")⟩
  else
    ⟨[.stepBanner 1, .gitBranchQuery, .gitStatusQuery, .npmPkgFix],
      { s1 with version := some env.manifestVersion }, none⟩

/-- Step 2, dependencies and tests: a failing clean install is a hard
failure; a failing test command is a soft failure (warning plus issue and
solution recorded) and the pipeline continues. -/
def dependenciesAndTests (env : Env) (s : St) : StepOut :=
  if ¬ env.npmCiOk then
    ⟨[.stepBanner 2, .npmCi], s, some "Error instalando dependencias"⟩
  else if env.npmTestOk then
    ⟨[.stepBanner 2, .npmCi, .npmTest], s, none⟩
  else
    ⟨[.stepBanner 2, .npmCi, .npmTest],
      { s with
        warnings := s.warnings ++ ["Paquete sin tests configurados - continuando con advertencia"]
        issues := s.issues ++ ["Tests no configurados"]
        solutions := s.solutions ++ ["Se recomienda agregar tests antes del próximo release"] },
      none⟩

/-- Step 3, build: runs the build script when the manifest declares one
(failure is hard), otherwise skips. -/
def build (env : Env) (s : St) : StepOut :=
  if ¬ env.hasBuildScript then
    ⟨[.stepBanner 3], s, none⟩
  else if env.buildOk then
    ⟨[.stepBanner 3, .npmRunBuild], s, none⟩
  else
    ⟨[.stepBanner 3, .npmRunBuild], s, some "Error en build"⟩

/-- Step 4, versioning: if a tag `v<current-version>` already exists the
current version is reused unchanged; otherwise the version is bumped in the
manifest via `npm version <kind> --no-git-tag-version` with the kind string
passed through verbatim. -/
def versioning (env : Env) (kind : String) (s : St) : StepOut :=
  let cv := env.manifestVersion
  let s1 := { s with version := some cv }
  if ("v" ++ cv) ∈ env.tags then
    ⟨[.stepBanner 4, .gitTagQuery ("v" ++ cv)], s1, none⟩
  else
    match npmVersionResult cv kind with
    | some nv =>
      ⟨[.stepBanner 4, .gitTagQuery ("v" ++ cv),
          .npmVersionCmd ("npm version " ++ kind ++ " --no-git-tag-version")],
        { s1 with version := some nv, treeChanged := true }, none⟩
    | none =>
      ⟨[.stepBanner 4, .gitTagQuery ("v" ++ cv),
          .npmVersionCmd ("npm version " ++ kind ++ " --no-git-tag-version")],
        s1, some ("npm version " ++ kind ++ " failed")⟩

/-- Change entries collected by the changelog step: one-line commit
summaries since the last tag; if none, the staged file paths as a single
synthetic entry; empty when the repository has no tags at all. -/
def mkChanges (env : Env) : List String :=
  match env.lastTag with
  | none => []
  | some _ =>
    if env.commitsSinceLastTag ≠ [] then
      env.commitsSinceLastTag.map (fun c => "- " ++ c)
    else if env.stagedFiles ≠ [] then
      ["- Cambios en archivos: " ++ joinWith ", " env.stagedFiles]
    else []

/-- New changelog section built by the changelog step. -/
def newChangelogEntry (version today : String) (changes : List String) : String :=
  "## [" ++ version ++ "] - " ++ today ++ "\n\n### Changed\n" ++
    (if joinWith "\n" changes = "" then "- Release automático" else joinWith "\n" changes) ++
    "\n\n"

/-- Does a changelog line open a version section (JavaScript
`line.startsWith('## [')`)? -/
def isVersionHeading (l : String) : Bool :=
  List.isPrefixOf "## [".data l.data

/-- Index of the first version-heading line of the changelog (0 when there
is none), mirroring the insertion-point scan of the script. -/
def insertIdx (changelog : String) : Nat :=
  match (splitLines changelog).findIdx? isVersionHeading with
  | some i => i
  | none => 0

/-- Pure core of the changelog step: the new section is spliced in at the
first version-heading line, after the leading title block. -/
def insertEntry (changelog entry : String) : String :=
  let lines := splitLines changelog
  let i := insertIdx changelog
  joinWith "\n" (lines.take i) ++ "\n" ++ entry ++ joinWith "\n" (lines.drop i)

/-- Step 5, changelog update: collects changes, warns (softly) when there
are none or when no previous tag exists, and rewrites CHANGELOG.md with the
new section inserted after the leading title block.  This step never fails
hard. -/
def updateChangelog (env : Env) (s : St) : StepOut :=
  let qs : List Effect :=
    match env.lastTag with
    | none => [.stepBanner 5, .gitDescribeQuery]
    | some _ =>
      if env.commitsSinceLastTag ≠ [] then
        [.stepBanner 5, .gitDescribeQuery, .gitLogQuery]
      else
        [.stepBanner 5, .gitDescribeQuery, .gitLogQuery, .gitDiffCachedQuery]
  let w1 : List String :=
    match env.lastTag with
    | none => ["No se encontraron tags anteriores"]
    | some _ => []
  let changes := mkChanges env
  let w2 : List String :=
    if changes = [] then ["No se encontraron cambios desde el último tag"] else []
  let entry := newChangelogEntry (optStr s.version) env.today changes
  ⟨qs ++ [.changelogWrite (insertEntry env.changelog entry)],
    { s with warnings := s.warnings ++ w1 ++ w2, treeChanged := true }, none⟩

/-- Step 6, commit and tag: stages everything; if nothing is staged the
step is a no-op.  Otherwise commits (retrying without hook verification
when the failure message mentions the pre-commit hook, which is recorded as
an issue and solution), then creates the annotated tag `v<version>` unless
it already exists. -/
def commitAndTag (env : Env) (s : St) : StepOut :=
  if s.treeChanged = false then
    ⟨[.stepBanner 6, .gitAddAll, .gitStatusQuery], s, none⟩
  else
    let ver := optStr s.version
    let msg := "chore(release): v" ++ ver
    let tagTr : List Effect :=
      if ("v" ++ ver) ∈ env.tags then [.gitTagQuery ("v" ++ ver)]
      else [.gitTagQuery ("v" ++ ver), .gitTagCreate ("v" ++ ver)]
    if env.commitOk then
      ⟨[.stepBanner 6, .gitAddAll, .gitStatusQuery, .gitCommit msg] ++ tagTr,
        { s with treeChanged := false }, none⟩
    else if env.commitErrMentionsPreCommit then
      ⟨[.stepBanner 6, .gitAddAll, .gitStatusQuery, .gitCommit msg, .gitCommitNoVerify msg]
          ++ tagTr,
        { s with treeChanged := false
                 warnings := s.warnings ++ ["Hook pre-commit no encontrado - usando --no-verify"]
                 issues := s.issues ++ ["Hooks de pre-commit no ejecutados"]
                 solutions := s.solutions ++ ["Se recomienda ejecutar hooks de calidad manualmente"] },
        none⟩
    else
      ⟨[.stepBanner 6, .gitAddAll, .gitStatusQuery, .gitCommit msg], s, some "Error en commit"⟩

/-- Step 7, push: pushes the current branch, then all tags, inside a single
guarded block; either push failing is a hard failure.  On success the head
commit identifier is recorded. -/
def push (env : Env) (s : St) : StepOut :=
  let b := optStr s.currentBranch
  if ¬ env.pushBranchOk then
    ⟨[.stepBanner 7, .gitPushBranch b], s, some "Error en push"⟩
  else if ¬ env.pushTagsOk then
    ⟨[.stepBanner 7, .gitPushBranch b, .gitPushTags], s, some "Error en push"⟩
  else
    ⟨[.stepBanner 7, .gitPushBranch b, .gitPushTags],
      { s with commitSha := some env.headSha }, none⟩

/-- Step 8, publish to npmjs: hard failure before any publish command when
the NPM_TOKEN environment variable is absent (the token value itself is
only ever tested for presence, never used otherwise); hard failure when the
publish command fails; on success the registry URL is recorded. -/
def publishToNpm (env : Env) (s : St) : StepOut :=
  match env.npmToken with
  | none => ⟨[.stepBanner 8], s, some "Variable de entorno NPM_TOKEN no configurada"⟩
  | some _ =>
    if env.npmPublishOk then
      ⟨[.stepBanner 8, .npmPublish],
        { s with registryUrls :=
            s.registryUrls ++ ["https://www.npmjs.com/package/" ++ env.pkgName] }, none⟩
    else
      ⟨[.stepBanner 8, .npmPublish], s, some "Error publicando en npm"⟩

/-- Occurrence of a character list inside another. -/
def listInfix (sub : List Char) : List Char → Bool
  | [] => sub.isEmpty
  | c :: cs => List.isPrefixOf sub (c :: cs) || listInfix sub cs

/-- Substring containment, mirroring JavaScript `String.prototype.includes`. -/
def containsStr (s sub : String) : Bool :=
  listInfix sub.data s.data

/-- Step 9, publish to GitHub Packages: only attempted for a scoped package
name with a registry-configuration file mentioning the GitHub registry;
every failure mode here is soft (warning, issue, solution). -/
def publishToGitHub (env : Env) (s : St) : StepOut :=
  if ¬ (env.pkgName.data.contains '/') then
    ⟨[.stepBanner 9],
      { s with warnings :=
          s.warnings ++ ["Paquete sin scope - omitiendo GitHub Packages según instrucciones"] },
      none⟩
  else
    match env.npmrc with
    | none =>
      ⟨[.stepBanner 9],
        { s with
          warnings := s.warnings ++ ["Archivo .npmrc no encontrado para GitHub Packages"]
          issues := s.issues ++ ["Archivo .npmrc no encontrado"]
          solutions := s.solutions ++ ["Crear .npmrc con configuración de GitHub Packages"] },
        none⟩
    | some c =>
      if ¬ containsStr c "npm.pkg.github.com" then
        ⟨[.stepBanner 9],
          { s with
            warnings := s.warnings ++ ["Archivo .npmrc no configurado correctamente para GitHub Packages"]
            issues := s.issues ++ [".npmrc sin configuración de GitHub Packages"]
            solutions := s.solutions ++ ["Agregar configuración de registry en .npmrc"] },
          none⟩
      else if env.ghPublishOk then
        ⟨[.stepBanner 9, .npmPublishGitHub],
          { s with registryUrls :=
              s.registryUrls ++ ["https://github.com/jhonma82/create-python-modern/packages"] },
          none⟩
      else
        ⟨[.stepBanner 9, .npmPublishGitHub],
          { s with
            warnings := s.warnings ++ ["Error publicando en GitHub Packages"]
            issues := s.issues ++ ["Error en publicación de GitHub Packages"]
            solutions := s.solutions ++ ["Verificar configuración de autenticación de GitHub"] },
          none⟩

/-- Step 10, verification: queries the registry for the published version
(the script retries the query up to three times with a fixed delay; the
embedding records the eventual outcome of that bounded loop).  Exhausted
retries or a version mismatch are hard failures; a failing metadata fetch
is soft and substitutes a placeholder. -/
def verification (env : Env) (s : St) : StepOut :=
  match env.registryVersion with
  | none =>
    ⟨[.stepBanner 10, .npmViewQuery], s, some "No se pudo verificar la publicación en npm"⟩
  | some rv =>
    if ¬ (some rv = s.version) then
      ⟨[.stepBanner 10, .npmViewQuery], s,
        some ("Versión en npm (" ++ rv ++ ") no coincide con versión local (" ++
          optStr s.version ++ ")")⟩
    else if env.pkgInfoQueryOk then
      ⟨[.stepBanner 10, .npmViewQuery, .npmViewQuery],
        { s with packageInfo := some env.pkgInfoText }, none⟩
    else
      ⟨[.stepBanner 10, .npmViewQuery, .npmViewQuery],
        { s with
          warnings := s.warnings ++ ["No se pudo obtener información completa del paquete"]
          packageInfo := some "Información no disponible" }, none⟩

/-- Rendering of the `report.md` content. -/
def reportContent (env : Env) (s : St) : String :=
  "# Reporte de Publicación\n**Fecha:** " ++ env.timestamp ++
  "\n**Estado:** " ++ s.status ++
  "\n**Versión:** " ++ optStr s.version ++
  "\n**Commit SHA:** " ++ optStr s.commitSha ++
  "\n\n## URLs de Registros\n" ++
    joinWith "\n" (s.registryUrls.map (fun u => "- " ++ u)) ++
  "\n\n## Problemas Encontrados\n" ++
    (if s.issues.length > 0 then joinWith "\n" (s.issues.map (fun i => "- " ++ i)) else "Ninguno") ++
  "\n\n## Soluciones Aplicadas\n" ++
    (if s.solutions.length > 0 then joinWith "\n" (s.solutions.map (fun i => "- " ++ i)) else "Ninguna") ++
  "\n\n## Información del Paquete\n```\n" ++
    (match s.packageInfo with
     | none => "No disponible"
     | some t => if t = "" then "No disponible" else t) ++
  "\n```\n"

/-- Step 11, report generation: sets the outcome to `failed` exactly when
the errors array is nonempty, overwrites the report issues list with the
concatenation of errors and warnings, and writes `report.md`.  This step
runs on every exit path of the pipeline and never fails. -/
def generateReport (env : Env) (s : St) : StepOut :=
  let st :=
    { s with
      status := if s.errors.length > 0 then "failed" else "completed"
      issues := s.errors ++ s.warnings }
  ⟨[.stepBanner 11, .reportWrite (reportContent env st)], st, none⟩

/-- Suffix of the pipeline starting at step 10. -/
def stepsFrom10 (env : Env) (s : St) : StepOut :=
  verification env s

/-- Suffix of the pipeline starting at step 9. -/
def stepsFrom9 (env : Env) (s : St) : StepOut :=
  bindStep (publishToGitHub env s) (stepsFrom10 env)

/-- Suffix of the pipeline starting at step 8. -/
def stepsFrom8 (env : Env) (s : St) : StepOut :=
  bindStep (publishToNpm env s) (stepsFrom9 env)

/-- Suffix of the pipeline starting at step 7. -/
def stepsFrom7 (env : Env) (s : St) : StepOut :=
  bindStep (push env s) (stepsFrom8 env)

/-- Suffix of the pipeline starting at step 6. -/
def stepsFrom6 (env : Env) (s : St) : StepOut :=
  bindStep (commitAndTag env s) (stepsFrom7 env)

/-- Suffix of the pipeline starting at step 5. -/
def stepsFrom5 (env : Env) (s : St) : StepOut :=
  bindStep (updateChangelog env s) (stepsFrom6 env)

/-- Suffix of the pipeline starting at step 4. -/
def stepsFrom4 (env : Env) (kind : String) (s : St) : StepOut :=
  bindStep (versioning env kind s) (stepsFrom5 env)

/-- Suffix of the pipeline starting at step 3. -/
def stepsFrom3 (env : Env) (kind : String) (s : St) : StepOut :=
  bindStep (build env s) (stepsFrom4 env kind)

/-- Suffix of the pipeline starting at step 2. -/
def stepsFrom2 (env : Env) (kind : String) (s : St) : StepOut :=
  bindStep (dependenciesAndTests env s) (stepsFrom3 env kind)

/-- Steps 1 through 10 of the pipeline, sequenced with the hard-failure
short-circuit. -/
def runSteps (env : Env) (kind : String) : StepOut :=
  bindStep (preVerification env initSt) (stepsFrom2 env kind)

/-- The `run` method: execute the steps; on the success path generate the
report and finish, on a hard failure record the error message (the catch
block calls `this.error`) and generate the report before re-throwing. -/
def run (env : Env) (kind : String) : StepOut :=
  let o := runSteps env kind
  match o.err with
  | none =>
    let g := generateReport env o.st
    ⟨o.trace ++ g.trace, g.st, none⟩
  | some e =>
    let s1 := { o.st with errors := o.st.errors ++ ["Error en el proceso: " ++ e] }
    let g := generateReport env s1
    ⟨o.trace ++ g.trace, g.st, some e⟩

/-- The command-line entry point takes the release kind from the first
argument, `process.argv[2] || 'patch'`: the default applies when the
argument is absent, and also when it is the empty string (which is falsy in
JavaScript). -/
def entryReleaseType (arg : Option String) : String :=
  match arg with
  | none => "patch"
  | some s => if s = "" then "patch" else s

end Release

namespace Release

lemma splitChAux_ne_nil (sep : Char) (cs : List Char) : splitChAux sep cs ≠ [] := by
  induction cs with
  | nil => simp [splitChAux]
  | cons c cs ih =>
    by_cases h : c = sep
    · simp [splitChAux, h]
    · simp only [splitChAux, if_neg h]
      cases haux : splitChAux sep cs with
      | nil => simp
      | cons l ls => simp

lemma joinWith_one (sep a : String) : joinWith sep [a] = a := rfl

lemma joinWith_cons_cons (sep a b : String) (l : List String) :
    joinWith sep (a :: b :: l) = a ++ sep ++ joinWith sep (b :: l) := rfl

lemma joinWith_map_splitChAux (cs : List Char) :
    joinWith "\n" ((splitChAux '\n' cs).map String.mk) = String.mk cs := by
  induction cs with
  | nil => rfl
  | cons c cs ih =>
    by_cases h : c = '\n'
    · subst h
      obtain ⟨l, ls, hl⟩ := List.exists_cons_of_ne_nil (splitChAux_ne_nil '\n' cs)
      rw [hl] at ih
      simp only [splitChAux, if_pos rfl, hl, List.map_cons]
      apply String.ext
      have hd := congrArg String.data ih
      simp [joinWith_one, joinWith_cons_cons] at hd
      simp [joinWith_one, joinWith_cons_cons, hd]
    · obtain ⟨l, ls, hl⟩ := List.exists_cons_of_ne_nil (splitChAux_ne_nil '\n' cs)
      rw [hl] at ih
      simp only [splitChAux, if_neg h, hl, List.map_cons]
      cases ls with
      | nil =>
        simp only [List.map_nil, joinWith_one] at ih ⊢
        have hd := congrArg String.data ih
        simp [joinWith_one] at hd
        apply String.ext
        simp [hd]
      | cons l2 ls2 =>
        simp only [List.map_cons] at ih ⊢
        have hd := congrArg String.data ih
        simp [joinWith_one, joinWith_cons_cons] at hd
        apply String.ext
        simp [joinWith_one, joinWith_cons_cons, hd]

lemma joinWith_splitLines (s : String) : joinWith "\n" (splitLines s) = s := by
  have := joinWith_map_splitChAux s.data
  simpa [splitLines, splitCh] using this

end Release

namespace Release

lemma stringAppendAssoc (a b c : String) : a ++ b ++ c = a ++ (b ++ c) := by
  apply String.ext
  simp

lemma joinWith_take_drop :
    ∀ (ls : List String) (i : Nat), 0 < i → i < ls.length →
      joinWith "\n" (ls.take i) ++ "\n" ++ joinWith "\n" (ls.drop i) = joinWith "\n" ls := by
  intro ls
  induction ls with
  | nil => intro i h1 h2; simp at h2
  | cons a tl ih =>
    intro i h1 h2
    match i, h1 with
    | 1, _ =>
      cases tl with
      | nil => simp at h2
      | cons b tl2 =>
        simp only [List.take, List.drop, joinWith_one, joinWith_cons_cons]
    | (j+2), _ =>
      cases tl with
      | nil => simp at h2
      | cons b tl2 =>
        have hlt : j + 1 < (b :: tl2).length := by
          simp at h2
          simpa using h2
        have := ih (j+1) (by omega) hlt
        simp only [List.take, List.drop] at this ⊢
        rw [joinWith_cons_cons]
        rw [stringAppendAssoc (a ++ "\n") (joinWith "\n" (b :: List.take j tl2)) "\n"]
        rw [stringAppendAssoc (a ++ "\n") (joinWith "\n" (b :: List.take j tl2) ++ "\n")]
        rw [this]
        rw [joinWith_cons_cons]

end Release

namespace Release

lemma findIdxq_lt_length {α} (p : α → Bool) :
    ∀ (l : List α) (i : Nat), l.findIdx? p = some i → i < l.length := by
  intro l
  induction l with
  | nil => intro i h; simp [List.findIdx?] at h
  | cons a t ih =>
    intro i h
    rw [List.findIdx?_cons] at h
    by_cases hp : p a
    · simp [hp] at h
      subst h
      simp
    · simp [hp] at h
      cases hq : t.findIdx? p with
      | none => rw [hq] at h; simp at h
      | some j =>
        rw [hq] at h
        simp at h
        have := ih j hq
        subst h
        simp
        omega

lemma bindStep_ok {o : StepOut} {f : St → StepOut} (h : o.err = none) :
    bindStep o f = ⟨o.trace ++ (f o.st).trace, (f o.st).st, (f o.st).err⟩ := by
  simp [bindStep, h]

lemma bindStep_fail {o : StepOut} {f : St → StepOut} (h : o.err.isSome = true) :
    bindStep o f = o := by
  cases he : o.err with
  | none => rw [he] at h; simp at h
  | some e => simp [bindStep, he]

lemma bindStep_trace_all {p : Effect → Bool} {o : StepOut} {f : St → StepOut}
    (ho : o.trace.all p = true) (hf : ∀ s, (f s).trace.all p = true) :
    (bindStep o f).trace.all p = true := by
  cases he : o.err with
  | none => simp [bindStep, he, List.all_append, ho, hf]
  | some e => simpa [bindStep, he] using ho

lemma bindStep_pres (P : St → Prop) {o : StepOut} {f : St → StepOut}
    (ho : P o.st) (hf : ∀ s, P s → P ((f s).st)) : P ((bindStep o f).st) := by
  cases he : o.err with
  | none => simpa [bindStep, he] using hf o.st ho
  | some e => simpa [bindStep, he] using ho

lemma bindStep_errSome {o : StepOut} {f : St → StepOut}
    (hf : ∀ s, (f s).err.isSome = true) : (bindStep o f).err.isSome = true := by
  cases he : o.err with
  | none => simpa [bindStep, he] using hf o.st
  | some e => simp [bindStep, he]

lemma bindStep_mem_left {o : StepOut} {f : St → StepOut} {a : Effect}
    (h : a ∈ o.trace) : a ∈ (bindStep o f).trace := by
  cases he : o.err with
  | none => simp [bindStep, he]; exact Or.inl h
  | some e => simpa [bindStep, he] using h

lemma bindStep_mem_tail {o : StepOut} {f : St → StepOut} {a : Effect}
    (ho : o.err = none) (h : a ∈ (f o.st).trace) : a ∈ (bindStep o f).trace := by
  simp [bindStep, ho]
  exact Or.inr h

end Release

namespace Release

lemma pre_errs (env : Env) (s : St) : ((preVerification env s).st).errors = s.errors := by
  unfold preVerification; split_ifs <;> rfl

lemma deps_errs (env : Env) (s : St) : ((dependenciesAndTests env s).st).errors = s.errors := by
  unfold dependenciesAndTests; split_ifs <;> rfl

lemma build_errs (env : Env) (s : St) : ((build env s).st).errors = s.errors := by
  unfold build; split_ifs <;> rfl

lemma vers_errs (env : Env) (kind : String) (s : St) :
    ((versioning env kind s).st).errors = s.errors := by
  unfold versioning
  dsimp only
  split_ifs
  · rfl
  · cases h : npmVersionResult env.manifestVersion kind <;> simp only [h]

lemma chl_errs (env : Env) (s : St) : ((updateChangelog env s).st).errors = s.errors := by
  unfold updateChangelog; rfl

lemma commit_errs (env : Env) (s : St) : ((commitAndTag env s).st).errors = s.errors := by
  unfold commitAndTag; dsimp only; split_ifs <;> rfl

lemma push_errs (env : Env) (s : St) : ((push env s).st).errors = s.errors := by
  unfold push; dsimp only; split_ifs <;> rfl

lemma pubn_errs (env : Env) (s : St) : ((publishToNpm env s).st).errors = s.errors := by
  unfold publishToNpm
  cases h : env.npmToken <;> simp only [h] <;> split_ifs <;> rfl

lemma pubg_errs (env : Env) (s : St) : ((publishToGitHub env s).st).errors = s.errors := by
  unfold publishToGitHub
  cases h : env.npmrc <;> simp only [h] <;> split_ifs <;> rfl

lemma verif_errs (env : Env) (s : St) : ((verification env s).st).errors = s.errors := by
  unfold verification
  cases h : env.registryVersion <;> simp only [h] <;> split_ifs <;> rfl

lemma report_errs (env : Env) (s : St) : ((generateReport env s).st).errors = s.errors := by
  unfold generateReport; rfl

end Release

namespace Release

lemma pre_noRep (env : Env) (s : St) :
    (preVerification env s).trace.all (fun e => !e.isReportWrite) = true := by
  unfold preVerification; split_ifs <;> simp [Effect.isReportWrite]

lemma deps_noRep (env : Env) (s : St) :
    (dependenciesAndTests env s).trace.all (fun e => !e.isReportWrite) = true := by
  unfold dependenciesAndTests; split_ifs <;> simp [Effect.isReportWrite]

lemma build_noRep (env : Env) (s : St) :
    (build env s).trace.all (fun e => !e.isReportWrite) = true := by
  unfold build; split_ifs <;> simp [Effect.isReportWrite]

lemma vers_noRep (env : Env) (kind : String) (s : St) :
    (versioning env kind s).trace.all (fun e => !e.isReportWrite) = true := by
  unfold versioning
  dsimp only
  split_ifs
  · simp [Effect.isReportWrite]
  · cases h : npmVersionResult env.manifestVersion kind <;> simp [h, Effect.isReportWrite]

lemma chl_noRep (env : Env) (s : St) :
    (updateChangelog env s).trace.all (fun e => !e.isReportWrite) = true := by
  unfold updateChangelog
  cases h : env.lastTag <;> simp only [h] <;> (try split_ifs) <;> simp [Effect.isReportWrite]

lemma commit_noRep (env : Env) (s : St) :
    (commitAndTag env s).trace.all (fun e => !e.isReportWrite) = true := by
  unfold commitAndTag; dsimp only; split_ifs <;> simp [Effect.isReportWrite]

lemma push_noRep (env : Env) (s : St) :
    (push env s).trace.all (fun e => !e.isReportWrite) = true := by
  unfold push; dsimp only; split_ifs <;> simp [Effect.isReportWrite]

lemma pubn_noRep (env : Env) (s : St) :
    (publishToNpm env s).trace.all (fun e => !e.isReportWrite) = true := by
  unfold publishToNpm
  cases h : env.npmToken <;> simp only [h] <;> (try split_ifs) <;> simp [Effect.isReportWrite]

lemma pubg_noRep (env : Env) (s : St) :
    (publishToGitHub env s).trace.all (fun e => !e.isReportWrite) = true := by
  unfold publishToGitHub
  cases h : env.npmrc <;> simp only [h] <;> (try split_ifs) <;> simp [Effect.isReportWrite]

lemma verif_noRep (env : Env) (s : St) :
    (verification env s).trace.all (fun e => !e.isReportWrite) = true := by
  unfold verification
  cases h : env.registryVersion <;> simp only [h] <;> (try split_ifs) <;> simp [Effect.isReportWrite]

lemma pre_noPub (env : Env) (s : St) :
    (preVerification env s).trace.all (fun e => !e.isPublish) = true := by
  unfold preVerification; split_ifs <;> simp [Effect.isPublish]

lemma deps_noPub (env : Env) (s : St) :
    (dependenciesAndTests env s).trace.all (fun e => !e.isPublish) = true := by
  unfold dependenciesAndTests; split_ifs <;> simp [Effect.isPublish]

lemma build_noPub (env : Env) (s : St) :
    (build env s).trace.all (fun e => !e.isPublish) = true := by
  unfold build; split_ifs <;> simp [Effect.isPublish]

lemma vers_noPub (env : Env) (kind : String) (s : St) :
    (versioning env kind s).trace.all (fun e => !e.isPublish) = true := by
  unfold versioning
  dsimp only
  split_ifs
  · simp [Effect.isPublish]
  · cases h : npmVersionResult env.manifestVersion kind <;> simp [h, Effect.isPublish]

lemma chl_noPub (env : Env) (s : St) :
    (updateChangelog env s).trace.all (fun e => !e.isPublish) = true := by
  unfold updateChangelog
  cases h : env.lastTag <;> simp only [h] <;> (try split_ifs) <;> simp [Effect.isPublish]

lemma commit_noPub (env : Env) (s : St) :
    (commitAndTag env s).trace.all (fun e => !e.isPublish) = true := by
  unfold commitAndTag; dsimp only; split_ifs <;> simp [Effect.isPublish]

lemma push_noPub (env : Env) (s : St) :
    (push env s).trace.all (fun e => !e.isPublish) = true := by
  unfold push; dsimp only; split_ifs <;> simp [Effect.isPublish]

end Release

namespace Release

lemma deps_warn (env : Env) (s : St) {w : String} (h : w ∈ s.warnings) :
    w ∈ ((dependenciesAndTests env s).st).warnings := by
  unfold dependenciesAndTests; split_ifs <;> simp [h]

lemma build_warn (env : Env) (s : St) {w : String} (h : w ∈ s.warnings) :
    w ∈ ((build env s).st).warnings := by
  unfold build; split_ifs <;> simp [h]

lemma vers_warn (env : Env) (kind : String) (s : St) {w : String} (h : w ∈ s.warnings) :
    w ∈ ((versioning env kind s).st).warnings := by
  unfold versioning
  dsimp only
  split_ifs
  · simpa using h
  · cases hb : npmVersionResult env.manifestVersion kind <;> simp [hb, h]

lemma chl_warn (env : Env) (s : St) {w : String} (h : w ∈ s.warnings) :
    w ∈ ((updateChangelog env s).st).warnings := by
  unfold updateChangelog
  simp [h]

lemma commit_warn (env : Env) (s : St) {w : String} (h : w ∈ s.warnings) :
    w ∈ ((commitAndTag env s).st).warnings := by
  unfold commitAndTag; dsimp only; split_ifs <;> simp [h]

lemma push_warn (env : Env) (s : St) {w : String} (h : w ∈ s.warnings) :
    w ∈ ((push env s).st).warnings := by
  unfold push; dsimp only; split_ifs <;> simp [h]

lemma pubn_warn (env : Env) (s : St) {w : String} (h : w ∈ s.warnings) :
    w ∈ ((publishToNpm env s).st).warnings := by
  unfold publishToNpm
  cases ht : env.npmToken <;> simp only [ht] <;> (try split_ifs) <;> simp [h]

lemma pubg_warn (env : Env) (s : St) {w : String} (h : w ∈ s.warnings) :
    w ∈ ((publishToGitHub env s).st).warnings := by
  unfold publishToGitHub
  cases hr : env.npmrc <;> simp only [hr] <;> (try split_ifs) <;> simp [h]

lemma verif_warn (env : Env) (s : St) {w : String} (h : w ∈ s.warnings) :
    w ∈ ((verification env s).st).warnings := by
  unfold verification
  cases hr : env.registryVersion <;> simp only [hr] <;> (try split_ifs) <;> simp [h]

lemma deps_ver (env : Env) (s : St) : ((dependenciesAndTests env s).st).version = s.version := by
  unfold dependenciesAndTests; split_ifs <;> rfl

lemma build_ver (env : Env) (s : St) : ((build env s).st).version = s.version := by
  unfold build; split_ifs <;> rfl

lemma chl_ver (env : Env) (s : St) : ((updateChangelog env s).st).version = s.version := by
  unfold updateChangelog; rfl

lemma commit_ver (env : Env) (s : St) : ((commitAndTag env s).st).version = s.version := by
  unfold commitAndTag; dsimp only; split_ifs <;> rfl

lemma push_ver (env : Env) (s : St) : ((push env s).st).version = s.version := by
  unfold push; dsimp only; split_ifs <;> rfl

lemma pubn_ver (env : Env) (s : St) : ((publishToNpm env s).st).version = s.version := by
  unfold publishToNpm
  cases ht : env.npmToken <;> simp only [ht] <;> (try split_ifs) <;> rfl

lemma pubg_ver (env : Env) (s : St) : ((publishToGitHub env s).st).version = s.version := by
  unfold publishToGitHub
  cases hr : env.npmrc <;> simp only [hr] <;> (try split_ifs) <;> rfl

lemma verif_ver (env : Env) (s : St) : ((verification env s).st).version = s.version := by
  unfold verification
  cases hr : env.registryVersion <;> simp only [hr] <;> (try split_ifs) <;> rfl

lemma report_ver (env : Env) (s : St) : ((generateReport env s).st).version = s.version := by
  unfold generateReport; rfl

lemma report_warn (env : Env) (s : St) : ((generateReport env s).st).warnings = s.warnings := by
  unfold generateReport; rfl

end Release

namespace Release

lemma from10_errs (env : Env) (s : St) : ((stepsFrom10 env s).st).errors = s.errors :=
  verif_errs env s

lemma from9_errs (env : Env) (s : St) : ((stepsFrom9 env s).st).errors = s.errors := by
  unfold stepsFrom9
  have := bindStep_pres (fun st => st.errors = s.errors) (o := publishToGitHub env s)
    (f := stepsFrom10 env) (pubg_errs env s)
    (fun s2 h2 => (from10_errs env s2).trans h2)
  exact this

lemma from8_errs (env : Env) (s : St) : ((stepsFrom8 env s).st).errors = s.errors := by
  unfold stepsFrom8
  exact bindStep_pres (fun st => st.errors = s.errors) (pubn_errs env s)
    (fun s2 h2 => (from9_errs env s2).trans h2)

lemma from7_errs (env : Env) (s : St) : ((stepsFrom7 env s).st).errors = s.errors := by
  unfold stepsFrom7
  exact bindStep_pres (fun st => st.errors = s.errors) (push_errs env s)
    (fun s2 h2 => (from8_errs env s2).trans h2)

lemma from6_errs (env : Env) (s : St) : ((stepsFrom6 env s).st).errors = s.errors := by
  unfold stepsFrom6
  exact bindStep_pres (fun st => st.errors = s.errors) (commit_errs env s)
    (fun s2 h2 => (from7_errs env s2).trans h2)

lemma from5_errs (env : Env) (s : St) : ((stepsFrom5 env s).st).errors = s.errors := by
  unfold stepsFrom5
  exact bindStep_pres (fun st => st.errors = s.errors) (chl_errs env s)
    (fun s2 h2 => (from6_errs env s2).trans h2)

lemma from4_errs (env : Env) (kind : String) (s : St) :
    ((stepsFrom4 env kind s).st).errors = s.errors := by
  unfold stepsFrom4
  exact bindStep_pres (fun st => st.errors = s.errors) (vers_errs env kind s)
    (fun s2 h2 => (from5_errs env s2).trans h2)

lemma from3_errs (env : Env) (kind : String) (s : St) :
    ((stepsFrom3 env kind s).st).errors = s.errors := by
  unfold stepsFrom3
  exact bindStep_pres (fun st => st.errors = s.errors) (build_errs env s)
    (fun s2 h2 => (from4_errs env kind s2).trans h2)

lemma from2_errs (env : Env) (kind : String) (s : St) :
    ((stepsFrom2 env kind s).st).errors = s.errors := by
  unfold stepsFrom2
  exact bindStep_pres (fun st => st.errors = s.errors) (deps_errs env s)
    (fun s2 h2 => (from3_errs env kind s2).trans h2)

lemma runSteps_errs (env : Env) (kind : String) : ((runSteps env kind).st).errors = [] := by
  unfold runSteps
  have : ((preVerification env initSt).st).errors = [] := pre_errs env initSt
  exact bindStep_pres (fun st => st.errors = []) this
    (fun s2 h2 => (from2_errs env kind s2).trans h2)

lemma from10_noRep (env : Env) (s : St) :
    (stepsFrom10 env s).trace.all (fun e => !e.isReportWrite) = true :=
  verif_noRep env s

lemma from9_noRep (env : Env) (s : St) :
    (stepsFrom9 env s).trace.all (fun e => !e.isReportWrite) = true := by
  unfold stepsFrom9
  exact bindStep_trace_all (pubg_noRep env s) (fun s2 => from10_noRep env s2)

lemma from8_noRep (env : Env) (s : St) :
    (stepsFrom8 env s).trace.all (fun e => !e.isReportWrite) = true := by
  unfold stepsFrom8
  exact bindStep_trace_all (pubn_noRep env s) (fun s2 => from9_noRep env s2)

lemma from7_noRep (env : Env) (s : St) :
    (stepsFrom7 env s).trace.all (fun e => !e.isReportWrite) = true := by
  unfold stepsFrom7
  exact bindStep_trace_all (push_noRep env s) (fun s2 => from8_noRep env s2)

lemma from6_noRep (env : Env) (s : St) :
    (stepsFrom6 env s).trace.all (fun e => !e.isReportWrite) = true := by
  unfold stepsFrom6
  exact bindStep_trace_all (commit_noRep env s) (fun s2 => from7_noRep env s2)

lemma from5_noRep (env : Env) (s : St) :
    (stepsFrom5 env s).trace.all (fun e => !e.isReportWrite) = true := by
  unfold stepsFrom5
  exact bindStep_trace_all (chl_noRep env s) (fun s2 => from6_noRep env s2)

lemma from4_noRep (env : Env) (kind : String) (s : St) :
    (stepsFrom4 env kind s).trace.all (fun e => !e.isReportWrite) = true := by
  unfold stepsFrom4
  exact bindStep_trace_all (vers_noRep env kind s) (fun s2 => from5_noRep env s2)

lemma from3_noRep (env : Env) (kind : String) (s : St) :
    (stepsFrom3 env kind s).trace.all (fun e => !e.isReportWrite) = true := by
  unfold stepsFrom3
  exact bindStep_trace_all (build_noRep env s) (fun s2 => from4_noRep env kind s2)

lemma from2_noRep (env : Env) (kind : String) (s : St) :
    (stepsFrom2 env kind s).trace.all (fun e => !e.isReportWrite) = true := by
  unfold stepsFrom2
  exact bindStep_trace_all (deps_noRep env s) (fun s2 => from3_noRep env kind s2)

lemma runSteps_noRep (env : Env) (kind : String) :
    (runSteps env kind).trace.all (fun e => !e.isReportWrite) = true := by
  unfold runSteps
  exact bindStep_trace_all (pre_noRep env initSt) (fun s2 => from2_noRep env kind s2)

lemma from5_ver (env : Env) (s : St) : ((stepsFrom5 env s).st).version = s.version := by
  unfold stepsFrom5
  refine bindStep_pres (fun st => st.version = s.version) (chl_ver env s) (fun s2 h2 => ?_)
  unfold stepsFrom6
  refine bindStep_pres (fun st => st.version = s.version) ((commit_ver env s2).trans h2)
    (fun s3 h3 => ?_)
  unfold stepsFrom7
  refine bindStep_pres (fun st => st.version = s.version) ((push_ver env s3).trans h3)
    (fun s4 h4 => ?_)
  unfold stepsFrom8
  refine bindStep_pres (fun st => st.version = s.version) ((pubn_ver env s4).trans h4)
    (fun s5 h5 => ?_)
  unfold stepsFrom9
  refine bindStep_pres (fun st => st.version = s.version) ((pubg_ver env s5).trans h5)
    (fun s6 h6 => ?_)
  unfold stepsFrom10
  exact (verif_ver env s6).trans h6

end Release

namespace Release

lemma from3_warn (env : Env) (kind : String) (s : St) {w : String} (h : w ∈ s.warnings) :
    w ∈ ((stepsFrom3 env kind s).st).warnings := by
  unfold stepsFrom3
  refine bindStep_pres (fun st => w ∈ st.warnings) (build_warn env s h) (fun s2 h2 => ?_)
  unfold stepsFrom4
  refine bindStep_pres (fun st => w ∈ st.warnings) (vers_warn env kind s2 h2) (fun s3 h3 => ?_)
  unfold stepsFrom5
  refine bindStep_pres (fun st => w ∈ st.warnings) (chl_warn env s3 h3) (fun s4 h4 => ?_)
  unfold stepsFrom6
  refine bindStep_pres (fun st => w ∈ st.warnings) (commit_warn env s4 h4) (fun s5 h5 => ?_)
  unfold stepsFrom7
  refine bindStep_pres (fun st => w ∈ st.warnings) (push_warn env s5 h5) (fun s6 h6 => ?_)
  unfold stepsFrom8
  refine bindStep_pres (fun st => w ∈ st.warnings) (pubn_warn env s6 h6) (fun s7 h7 => ?_)
  unfold stepsFrom9
  refine bindStep_pres (fun st => w ∈ st.warnings) (pubg_warn env s7 h7) (fun s8 h8 => ?_)
  unfold stepsFrom10
  exact verif_warn env s8 h8

lemma run_eq_ok (env : Env) (kind : String) (h : (runSteps env kind).err = none) :
    run env kind =
      ⟨(runSteps env kind).trace ++ (generateReport env (runSteps env kind).st).trace,
        (generateReport env (runSteps env kind).st).st, none⟩ := by
  unfold run
  dsimp only
  rw [h]

lemma run_eq_fail (env : Env) (kind : String) (e : String)
    (h : (runSteps env kind).err = some e) :
    run env kind =
      ⟨(runSteps env kind).trace ++
          (generateReport env
            { (runSteps env kind).st with
              errors := ((runSteps env kind).st).errors ++ ["Error en el proceso: " ++ e] }).trace,
        (generateReport env
          { (runSteps env kind).st with
            errors := ((runSteps env kind).st).errors ++ ["Error en el proceso: " ++ e] }).st,
        some e⟩ := by
  unfold run
  dsimp only
  rw [h]

lemma report_status_eq (env : Env) (s : St) :
    ((generateReport env s).st).status = (if s.errors.length > 0 then "failed" else "completed") :=
  rfl

lemma report_issues_eq (env : Env) (s : St) :
    ((generateReport env s).st).issues = s.errors ++ s.warnings := rfl

lemma run_err_eq (env : Env) (kind : String) : (run env kind).err = (runSteps env kind).err := by
  cases h : (runSteps env kind).err with
  | none => rw [run_eq_ok env kind h]
  | some e => rw [run_eq_fail env kind e h]

lemma run_status_iff (env : Env) (kind : String) :
    (run env kind).st.status = "failed" ↔ (run env kind).err.isSome = true := by
  cases h : (runSteps env kind).err with
  | none =>
    rw [run_eq_ok env kind h]
    simp only [report_status_eq, runSteps_errs env kind]
    simp
  | some e =>
    rw [run_eq_fail env kind e h]
    simp only [report_status_eq]
    simp [runSteps_errs env kind]

end Release

namespace Release

lemma run_reportWrites (env : Env) (kind : String) :
    ((run env kind).trace.filter (fun e => e.isReportWrite)).length = 1 := by
  have hsteps : ∀ tr : List Effect, tr.all (fun e => !e.isReportWrite) = true →
      tr.filter (fun e => e.isReportWrite) = [] := by
    intro tr h
    rw [List.filter_eq_nil]
    intro a ha
    have := List.all_eq_true.mp h a ha
    simpa using this
  cases h : (runSteps env kind).err with
  | none =>
    rw [run_eq_ok env kind h]
    simp only [List.filter_append]
    rw [hsteps _ (runSteps_noRep env kind)]
    simp [generateReport, Effect.isReportWrite]
  | some e =>
    rw [run_eq_fail env kind e h]
    simp only [List.filter_append]
    rw [hsteps _ (runSteps_noRep env kind)]
    simp [generateReport, Effect.isReportWrite]

lemma run_issues_split (env : Env) (kind : String) :
    (run env kind).st.issues = (run env kind).st.errors ++ (run env kind).st.warnings := by
  cases h : (runSteps env kind).err with
  | none =>
    rw [run_eq_ok env kind h]
    rfl
  | some e =>
    rw [run_eq_fail env kind e h]
    rfl

lemma run_mem_steps (env : Env) (kind : String) {a : Effect}
    (h : a ∈ (runSteps env kind).trace) : a ∈ (run env kind).trace := by
  cases he : (runSteps env kind).err with
  | none => rw [run_eq_ok env kind he]; exact List.mem_append_left _ h
  | some e => rw [run_eq_fail env kind e he]; exact List.mem_append_left _ h

lemma run_warning_in_issues (env : Env) (kind : String) {w : String}
    (h : w ∈ ((runSteps env kind).st).warnings) : w ∈ (run env kind).st.issues := by
  cases he : (runSteps env kind).err with
  | none =>
    rw [run_eq_ok env kind he, report_issues_eq]
    exact List.mem_append_right _ h
  | some e =>
    rw [run_eq_fail env kind e he, report_issues_eq]
    exact List.mem_append_right _ h

lemma run_version_eq (env : Env) (kind : String) :
    (run env kind).st.version = ((runSteps env kind).st).version := by
  cases he : (runSteps env kind).err with
  | none => rw [run_eq_ok env kind he]; rfl
  | some e => rw [run_eq_fail env kind e he]; rfl

lemma run_noPub_of_steps (env : Env) (kind : String)
    (h : (runSteps env kind).trace.all (fun e => !e.isPublish) = true) :
    (run env kind).trace.all (fun e => !e.isPublish) = true := by
  cases he : (runSteps env kind).err with
  | none =>
    rw [run_eq_ok env kind he]
    simp only [List.all_append, h, Bool.true_and]
    simp [generateReport, Effect.isPublish]
  | some e =>
    rw [run_eq_fail env kind e he]
    simp only [List.all_append, h, Bool.true_and]
    simp [generateReport, Effect.isPublish]

end Release

namespace Release

lemma semverOk_parse (s : String) (h : semverOk s = true) : ∃ t, parseSemver s = some t := by
  unfold semverOk at h
  unfold parseSemver
  cases hsp : splitCh '.' s with
  | nil => rw [hsp] at h; simp at h
  | cons a t1 =>
    cases t1 with
    | nil => rw [hsp] at h; simp at h
    | cons b t2 =>
      cases t2 with
      | nil => rw [hsp] at h; simp at h
      | cons c t3 =>
        cases t3 with
        | nil =>
          rw [hsp] at h
          simp only [Bool.and_eq_true] at h
          obtain ⟨⟨⟨ha1, ha2⟩, hb1, hb2⟩, hc1, hc2⟩ := h
          have ha : parseNatStr a = some (digitsToNat a.data) := by
            simp [parseNatStr, ha1, ha2]
          have hb : parseNatStr b = some (digitsToNat b.data) := by
            simp [parseNatStr, hb1, hb2]
          have hc : parseNatStr c = some (digitsToNat c.data) := by
            simp [parseNatStr, hc1, hc2]
          dsimp only
          rw [ha, hb, hc]
          exact ⟨_, rfl⟩
        | cons d t4 => rw [hsp] at h; simp at h

lemma npmVersionResult_patch (s : String) (h : semverOk s = true) :
    ∃ v, npmVersionResult s "patch" = some v := by
  obtain ⟨⟨x, y, z⟩, ht⟩ := semverOk_parse s h
  unfold npmVersionResult
  rw [ht]
  simp

end Release

namespace Release

lemma pre_eq_ok (env : Env) (s : St) (hb : env.branch = "master" ∨ env.branch = "main")
    (hd : env.dirtyAtStart = false) (hv : semverOk env.manifestVersion = true) :
    preVerification env s =
      ⟨[.stepBanner 1, .gitBranchQuery, .gitStatusQuery, .npmPkgFix],
        { s with currentBranch := some env.branch, version := some env.manifestVersion },
        none⟩ := by
  unfold preVerification
  rcases hb with hb | hb <;> simp [hb, hd, hv]

lemma deps_err_none (env : Env) (s : St) (hc : env.npmCiOk = true) :
    (dependenciesAndTests env s).err = none := by
  unfold dependenciesAndTests
  split_ifs <;> simp_all

lemma build_err_none (env : Env) (s : St) (hb : env.hasBuildScript = true → env.buildOk = true) :
    (build env s).err = none := by
  unfold build
  split_ifs with h1 h2
  all_goals try rfl
  exact absurd (hb (by simpa using h1)) h2

lemma vers_err_none (env : Env) (s : St) (hv : semverOk env.manifestVersion = true) :
    (versioning env "patch" s).err = none := by
  unfold versioning
  dsimp only
  split_ifs
  · rfl
  · obtain ⟨v, hres⟩ := npmVersionResult_patch env.manifestVersion hv
    rw [hres]

lemma chl_err_none (env : Env) (s : St) : (updateChangelog env s).err = none := by
  unfold updateChangelog
  rfl

lemma commit_err_none (env : Env) (s : St) (hc : env.commitOk = true) :
    (commitAndTag env s).err = none := by
  unfold commitAndTag
  dsimp only
  split_ifs <;> simp_all

lemma push_err_none (env : Env) (s : St) (h1 : env.pushBranchOk = true)
    (h2 : env.pushTagsOk = true) : (push env s).err = none := by
  unfold push
  dsimp only
  split_ifs <;> simp_all

lemma chl_tree (env : Env) (s : St) : ((updateChangelog env s).st).treeChanged = true := by
  unfold updateChangelog
  rfl

lemma chl_mem_write (env : Env) (s : St) :
    Effect.changelogWrite
        (insertEntry env.changelog
          (newChangelogEntry (optStr s.version) env.today (mkChanges env))) ∈
      (updateChangelog env s).trace := by
  unfold updateChangelog
  cases h : env.lastTag <;> simp only [h] <;> (try split_ifs) <;> simp

end Release

namespace Release

lemma vers_eq_keep (env : Env) (kind : String) (s : St)
    (h : ("v" ++ env.manifestVersion) ∈ env.tags) :
    versioning env kind s =
      ⟨[.stepBanner 4, .gitTagQuery ("v" ++ env.manifestVersion)],
        { s with version := some env.manifestVersion }, none⟩ := by
  unfold versioning
  dsimp only
  rw [if_pos h]

lemma vers_eq_bump (env : Env) (kind : String) (s : St) (nv : String)
    (h : ("v" ++ env.manifestVersion) ∉ env.tags)
    (hres : npmVersionResult env.manifestVersion kind = some nv) :
    versioning env kind s =
      ⟨[.stepBanner 4, .gitTagQuery ("v" ++ env.manifestVersion),
          .npmVersionCmd ("npm version " ++ kind ++ " --no-git-tag-version")],
        { s with version := some nv, treeChanged := true }, none⟩ := by
  unfold versioning
  dsimp only
  rw [if_neg h, hres]

lemma vers_cmd_mem (env : Env) (kind : String) (s : St)
    (h : ("v" ++ env.manifestVersion) ∉ env.tags) :
    Effect.npmVersionCmd ("npm version " ++ kind ++ " --no-git-tag-version") ∈
      (versioning env kind s).trace := by
  unfold versioning
  dsimp only
  rw [if_neg h]
  cases hres : npmVersionResult env.manifestVersion kind <;> simp

lemma vers_banner_mem (env : Env) (kind : String) (s : St) :
    Effect.stepBanner 4 ∈ (versioning env kind s).trace := by
  unfold versioning
  dsimp only
  split_ifs
  · simp
  · cases hres : npmVersionResult env.manifestVersion kind <;> simp

lemma build_banner_mem (env : Env) (s : St) :
    Effect.stepBanner 3 ∈ (build env s).trace := by
  unfold build
  split_ifs <;> simp

lemma commit_tag_mem (env : Env) (s : St) (htree : s.treeChanged = true)
    (hc : env.commitOk = true) (htag : ("v" ++ optStr s.version) ∉ env.tags) :
    Effect.gitTagCreate ("v" ++ optStr s.version) ∈ (commitAndTag env s).trace := by
  unfold commitAndTag
  dsimp only
  rw [if_neg (by simp [htree]), if_pos hc, if_neg htag]
  simp

lemma pubn_mem (env : Env) (s : St) (ht : env.npmToken.isSome = true) :
    Effect.npmPublish ∈ (publishToNpm env s).trace := by
  unfold publishToNpm
  cases h : env.npmToken with
  | none => rw [h] at ht; simp at ht
  | some t => simp only [h]; split_ifs <;> simp

lemma pubn_banner_mem (env : Env) (s : St) :
    Effect.stepBanner 8 ∈ (publishToNpm env s).trace := by
  unfold publishToNpm
  cases h : env.npmToken <;> simp only [h] <;> (try split_ifs) <;> simp

lemma push_fail_out (env : Env) (s : St) (hp : env.pushBranchOk = false ∨ env.pushTagsOk = false) :
    (push env s).err.isSome = true ∧ (push env s).trace.all (fun e => !e.isPublish) = true := by
  unfold push
  dsimp only
  rcases hp with hp | hp
  · rw [if_pos (by simp [hp])]
    simp [Effect.isPublish]
  · split_ifs <;> simp_all [Effect.isPublish]

lemma pubn_token_none_out (env : Env) (s : St) (ht : env.npmToken = none) :
    (publishToNpm env s).err.isSome = true ∧
      (publishToNpm env s).trace.all (fun e => !e.isPublish) = true := by
  unfold publishToNpm
  rw [ht]
  simp [Effect.isPublish]

end Release

namespace Release

lemma from7_pushfail (env : Env) (hp : env.pushBranchOk = false ∨ env.pushTagsOk = false)
    (s : St) : (stepsFrom7 env s).err.isSome = true ∧
      (stepsFrom7 env s).trace.all (fun e => !e.isPublish) = true := by
  have hout := push_fail_out env s hp
  unfold stepsFrom7
  rw [bindStep_fail hout.1]
  exact hout

lemma from6_pushfail (env : Env) (hp : env.pushBranchOk = false ∨ env.pushTagsOk = false)
    (s : St) : (stepsFrom6 env s).err.isSome = true ∧
      (stepsFrom6 env s).trace.all (fun e => !e.isPublish) = true := by
  unfold stepsFrom6
  exact ⟨bindStep_errSome (fun s2 => (from7_pushfail env hp s2).1),
    bindStep_trace_all (commit_noPub env s) (fun s2 => (from7_pushfail env hp s2).2)⟩

lemma from5_pushfail (env : Env) (hp : env.pushBranchOk = false ∨ env.pushTagsOk = false)
    (s : St) : (stepsFrom5 env s).err.isSome = true ∧
      (stepsFrom5 env s).trace.all (fun e => !e.isPublish) = true := by
  unfold stepsFrom5
  exact ⟨bindStep_errSome (fun s2 => (from6_pushfail env hp s2).1),
    bindStep_trace_all (chl_noPub env s) (fun s2 => (from6_pushfail env hp s2).2)⟩

lemma from4_pushfail (env : Env) (kind : String)
    (hp : env.pushBranchOk = false ∨ env.pushTagsOk = false)
    (s : St) : (stepsFrom4 env kind s).err.isSome = true ∧
      (stepsFrom4 env kind s).trace.all (fun e => !e.isPublish) = true := by
  unfold stepsFrom4
  exact ⟨bindStep_errSome (fun s2 => (from5_pushfail env hp s2).1),
    bindStep_trace_all (vers_noPub env kind s) (fun s2 => (from5_pushfail env hp s2).2)⟩

lemma from3_pushfail (env : Env) (kind : String)
    (hp : env.pushBranchOk = false ∨ env.pushTagsOk = false)
    (s : St) : (stepsFrom3 env kind s).err.isSome = true ∧
      (stepsFrom3 env kind s).trace.all (fun e => !e.isPublish) = true := by
  unfold stepsFrom3
  exact ⟨bindStep_errSome (fun s2 => (from4_pushfail env kind hp s2).1),
    bindStep_trace_all (build_noPub env s) (fun s2 => (from4_pushfail env kind hp s2).2)⟩

lemma from2_pushfail (env : Env) (kind : String)
    (hp : env.pushBranchOk = false ∨ env.pushTagsOk = false)
    (s : St) : (stepsFrom2 env kind s).err.isSome = true ∧
      (stepsFrom2 env kind s).trace.all (fun e => !e.isPublish) = true := by
  unfold stepsFrom2
  exact ⟨bindStep_errSome (fun s2 => (from3_pushfail env kind hp s2).1),
    bindStep_trace_all (deps_noPub env s) (fun s2 => (from3_pushfail env kind hp s2).2)⟩

lemma runSteps_pushfail (env : Env) (kind : String)
    (hp : env.pushBranchOk = false ∨ env.pushTagsOk = false) :
    (runSteps env kind).err.isSome = true ∧
      (runSteps env kind).trace.all (fun e => !e.isPublish) = true := by
  unfold runSteps
  exact ⟨bindStep_errSome (fun s2 => (from2_pushfail env kind hp s2).1),
    bindStep_trace_all (pre_noPub env initSt) (fun s2 => (from2_pushfail env kind hp s2).2)⟩

lemma from8_tokfail (env : Env) (ht : env.npmToken = none)
    (s : St) : (stepsFrom8 env s).err.isSome = true ∧
      (stepsFrom8 env s).trace.all (fun e => !e.isPublish) = true := by
  have hout := pubn_token_none_out env s ht
  unfold stepsFrom8
  rw [bindStep_fail hout.1]
  exact hout

lemma from7_tokfail (env : Env) (ht : env.npmToken = none)
    (s : St) : (stepsFrom7 env s).err.isSome = true ∧
      (stepsFrom7 env s).trace.all (fun e => !e.isPublish) = true := by
  unfold stepsFrom7
  exact ⟨bindStep_errSome (fun s2 => (from8_tokfail env ht s2).1),
    bindStep_trace_all (push_noPub env s) (fun s2 => (from8_tokfail env ht s2).2)⟩

lemma from6_tokfail (env : Env) (ht : env.npmToken = none)
    (s : St) : (stepsFrom6 env s).err.isSome = true ∧
      (stepsFrom6 env s).trace.all (fun e => !e.isPublish) = true := by
  unfold stepsFrom6
  exact ⟨bindStep_errSome (fun s2 => (from7_tokfail env ht s2).1),
    bindStep_trace_all (commit_noPub env s) (fun s2 => (from7_tokfail env ht s2).2)⟩

lemma from5_tokfail (env : Env) (ht : env.npmToken = none)
    (s : St) : (stepsFrom5 env s).err.isSome = true ∧
      (stepsFrom5 env s).trace.all (fun e => !e.isPublish) = true := by
  unfold stepsFrom5
  exact ⟨bindStep_errSome (fun s2 => (from6_tokfail env ht s2).1),
    bindStep_trace_all (chl_noPub env s) (fun s2 => (from6_tokfail env ht s2).2)⟩

lemma from4_tokfail (env : Env) (kind : String) (ht : env.npmToken = none)
    (s : St) : (stepsFrom4 env kind s).err.isSome = true ∧
      (stepsFrom4 env kind s).trace.all (fun e => !e.isPublish) = true := by
  unfold stepsFrom4
  exact ⟨bindStep_errSome (fun s2 => (from5_tokfail env ht s2).1),
    bindStep_trace_all (vers_noPub env kind s) (fun s2 => (from5_tokfail env ht s2).2)⟩

lemma from3_tokfail (env : Env) (kind : String) (ht : env.npmToken = none)
    (s : St) : (stepsFrom3 env kind s).err.isSome = true ∧
      (stepsFrom3 env kind s).trace.all (fun e => !e.isPublish) = true := by
  unfold stepsFrom3
  exact ⟨bindStep_errSome (fun s2 => (from4_tokfail env kind ht s2).1),
    bindStep_trace_all (build_noPub env s) (fun s2 => (from4_tokfail env kind ht s2).2)⟩

lemma from2_tokfail (env : Env) (kind : String) (ht : env.npmToken = none)
    (s : St) : (stepsFrom2 env kind s).err.isSome = true ∧
      (stepsFrom2 env kind s).trace.all (fun e => !e.isPublish) = true := by
  unfold stepsFrom2
  exact ⟨bindStep_errSome (fun s2 => (from3_tokfail env kind ht s2).1),
    bindStep_trace_all (deps_noPub env s) (fun s2 => (from3_tokfail env kind ht s2).2)⟩

lemma runSteps_tokfail (env : Env) (kind : String) (ht : env.npmToken = none) :
    (runSteps env kind).err.isSome = true ∧
      (runSteps env kind).trace.all (fun e => !e.isPublish) = true := by
  unfold runSteps
  exact ⟨bindStep_errSome (fun s2 => (from2_tokfail env kind ht s2).1),
    bindStep_trace_all (pre_noPub env initSt) (fun s2 => (from2_tokfail env kind ht s2).2)⟩

end Release

namespace Release

lemma bindStep_st_ok {o : StepOut} {f : St → StepOut} (h : o.err = none) :
    (bindStep o f).st = (f o.st).st := by
  rw [bindStep_ok h]

lemma bindStep_err_ok {o : StepOut} {f : St → StepOut} (h : o.err = none) :
    (bindStep o f).err = (f o.st).err := by
  rw [bindStep_ok h]

lemma pre_eq_badbranch (env : Env) (s : St)
    (hb : ¬ (env.branch = "master" ∨ env.branch = "main")) :
    preVerification env s =
      ⟨[.stepBanner 1, .gitBranchQuery], { s with currentBranch := some env.branch },
        some ("Rama actual es '" ++ env.branch ++ "'. Debe estar en 'master' o 'main'")⟩ := by
  unfold preVerification
  rw [if_pos hb]

lemma pre_eq_dirty (env : Env) (s : St)
    (hb : env.branch = "master" ∨ env.branch = "main") (hd : env.dirtyAtStart = true) :
    preVerification env s =
      ⟨[.stepBanner 1, .gitBranchQuery, .gitStatusQuery],
        { s with currentBranch := some env.branch },
        some "Hay cambios sin añadir. Por favor, añade o descarta los cambios antes de continuar."⟩ := by
  unfold preVerification
  rw [if_neg (not_not_intro hb), if_pos hd]

lemma pre_eq_badver (env : Env) (s : St)
    (hb : env.branch = "master" ∨ env.branch = "main") (hd : env.dirtyAtStart = false)
    (hv : semverOk env.manifestVersion = false) :
    preVerification env s =
      ⟨[.stepBanner 1, .gitBranchQuery, .gitStatusQuery, .npmPkgFix],
        { s with currentBranch := some env.branch },
        some ("Versión '" ++ env.manifestVersion ++ "' no sigue formato semver X.Y.Z")⟩ := by
  unfold preVerification
  rw [if_neg (not_not_intro hb), if_neg (by simp [hd]), if_pos (by simp [hv])]

lemma runSteps_of_pre_fail (env : Env) (kind : String)
    (h : (preVerification env initSt).err.isSome = true) :
    runSteps env kind = preVerification env initSt := by
  unfold runSteps
  exact bindStep_fail h

end Release

namespace Release

/-- Baseline external state for the concrete scenarios below: a clean
checkout of `master` at manifest version 1.0.0 with no git tags, every
external command succeeding, and the registry reporting 1.0.1 after the
publish. -/
def baseEnv : Env :=
  { branch := "master", dirtyAtStart := false, manifestVersion := "1.0.0"
    tags := [], npmCiOk := true, npmTestOk := true, hasBuildScript := false, buildOk := true
    lastTag := none, commitsSinceLastTag := [], stagedFiles := []
    changelog := "# Changelog\n\n## [1.0.0] - 2025-01-01\n\n### Added\n- inicio\n"
    today := "2026-10-11", timestamp := "2026-10-11T00:00:00.000Z"
    commitOk := true, commitErrMentionsPreCommit := false
    pushBranchOk := true, pushTagsOk := true, headSha := "abc1234"
    npmToken := some "secreto", npmPublishOk := true
    pkgName := "create-python-modern", npmrc := none, ghPublishOk := true
    registryVersion := some "1.0.1", pkgInfoQueryOk := true
    pkgInfoText := "create-python-modern versions info" }

/-- External state for the idempotence scenario: the manifest version is
1.0.8 and the tag v1.0.8 already exists (a previous run released it), the
changelog already holds the 1.0.8 section, and there are no new commits. -/
def rerunEnv : Env :=
  { baseEnv with
    manifestVersion := "1.0.8"
    tags := ["v1.0.8"]
    lastTag := some "v1.0.8"
    changelog := "# Changelog\n\n## [1.0.8] - 2025-09-18\n\n### Changed\n- cambio\n"
    registryVersion := some "1.0.8" }

lemma run_completed_of_ok (env : Env) (kind : String) (h : (run env kind).err = none) :
    (run env kind).st.status = "completed" := by
  have hsteps : (runSteps env kind).err = none := by rw [← run_err_eq]; exact h
  rw [run_eq_ok env kind hsteps, report_status_eq, runSteps_errs env kind]
  simp

/-- C1: for every run, exactly one report file is written, the report
outcome field is `failed` exactly when a hard error occurred during the
run, and on the no-hard-error success path the outcome equals
`completed`. -/
theorem report_once_and_outcome_iff_hard_failure (env : Env) (kind : String) :
    ((run env kind).trace.filter (fun e => e.isReportWrite)).length = 1 ∧
      ((run env kind).st.status = "failed" ↔ (run env kind).err.isSome = true) ∧
      ((run env kind).err = none → (run env kind).st.status = "completed") :=
  ⟨run_reportWrites env kind, run_status_iff env kind, run_completed_of_ok env kind⟩

/-- Witness for C1 at the concrete baseline state, whose run has no hard
error: one report write and a `completed` outcome. -/
theorem report_once_and_outcome_iff_hard_failure_witness :
    ((run baseEnv "patch").trace.filter (fun e => e.isReportWrite)).length = 1 ∧
    (run baseEnv "patch").st.status = "completed" :=
  ⟨(report_once_and_outcome_iff_hard_failure baseEnv "patch").1,
    (report_once_and_outcome_iff_hard_failure baseEnv "patch").2.2 (by decide)⟩

/-- C6: if the branch push or the tags push fails, the run hard-fails, the
report outcome is `failed`, and no publish command is ever attempted. -/
theorem push_failure_aborts_before_publish (env : Env) (kind : String)
    (hp : env.pushBranchOk = false ∨ env.pushTagsOk = false) :
    (run env kind).err.isSome = true ∧
    (run env kind).st.status = "failed" ∧
    (run env kind).trace.all (fun e => !e.isPublish) = true := by
  have h := runSteps_pushfail env kind hp
  have herr : (run env kind).err.isSome = true := by rw [run_err_eq]; exact h.1
  exact ⟨herr, (run_status_iff env kind).mpr herr, run_noPub_of_steps env kind h.2⟩

/-- Witness for C6 at a concrete state where the branch push fails. -/
theorem push_failure_aborts_before_publish_witness :
    (run { baseEnv with pushBranchOk := false } "patch").err.isSome = true ∧
    (run { baseEnv with pushBranchOk := false } "patch").st.status = "failed" ∧
    (run { baseEnv with pushBranchOk := false } "patch").trace.all
      (fun e => !e.isPublish) = true :=
  push_failure_aborts_before_publish { baseEnv with pushBranchOk := false } "patch" (Or.inl rfl)

/-- C7: when the NPM_TOKEN environment variable is absent the run
hard-fails before any publish command is attempted; and the run is
oblivious to the token value: every observable (trace, state, report
content, error) is identical for any two token values. -/
theorem missing_token_blocks_publish_and_no_leak (env : Env) (kind : String) :
    (env.npmToken = none →
      (run env kind).err.isSome = true ∧
      (run env kind).trace.all (fun e => !e.isPublish) = true) ∧
    (∀ t1 t2 : String,
      run { env with npmToken := some t1 } kind = run { env with npmToken := some t2 } kind) := by
  constructor
  · intro ht
    have h := runSteps_tokfail env kind ht
    exact ⟨by rw [run_err_eq]; exact h.1, run_noPub_of_steps env kind h.2⟩
  · intro t1 t2
    rfl

/-- Witness for C7 at a concrete state with no token. -/
theorem missing_token_blocks_publish_and_no_leak_witness :
    (run { baseEnv with npmToken := none } "patch").err.isSome = true ∧
    run { { baseEnv with npmToken := none } with npmToken := some "token-a" } "patch" =
      run { { baseEnv with npmToken := none } with npmToken := some "token-b" } "patch" :=
  ⟨((missing_token_blocks_publish_and_no_leak { baseEnv with npmToken := none } "patch").1
      rfl).1,
    (missing_token_blocks_publish_and_no_leak { baseEnv with npmToken := none } "patch").2
      "token-a" "token-b"⟩

/-- C9 (amended): the final issues list of the report is exactly the
concatenation of the recorded hard-error messages and warnings; issues
pushed directly into the report state by individual steps are overwritten
by report generation. -/
theorem report_issues_are_errors_then_warnings (env : Env) (kind : String) :
    (run env kind).st.issues = (run env kind).st.errors ++ (run env kind).st.warnings :=
  run_issues_split env kind

/-- Counterexample for C9 as stated: with a failing test command the step
records the issue `Tests no configurados` into the report state, but the
generated report's issues list does not contain it. -/
theorem recorded_issue_dropped_from_final_report :
    "Tests no configurados" ∈ ((runSteps { baseEnv with npmTestOk := false } "patch").st).issues ∧
    "Tests no configurados" ∉ (run { baseEnv with npmTestOk := false } "patch").st.issues := by
  decide

end Release

namespace Release

/-- C4 (amended): a wrong branch or a dirty working tree aborts the run
before any mutating command; a malformed manifest version also aborts the
run, but only after the manifest normalization (`npm pkg fix`) has already
run — no other mutation (no changelog write, commit, tag, push, or publish)
has occurred at that point. -/
theorem preverification_failures_abort_before_mutations (env : Env) (kind : String) :
    ((¬ (env.branch = "master" ∨ env.branch = "main")) →
      (run env kind).err.isSome = true ∧
      (run env kind).trace.all (fun e => !e.isMutation) = true) ∧
    ((env.branch = "master" ∨ env.branch = "main") → env.dirtyAtStart = true →
      (run env kind).err.isSome = true ∧
      (run env kind).trace.all (fun e => !e.isMutation) = true) ∧
    ((env.branch = "master" ∨ env.branch = "main") → env.dirtyAtStart = false →
      semverOk env.manifestVersion = false →
      (run env kind).err.isSome = true ∧
      (run env kind).trace.all
        (fun e => !e.isMutation || decide (e = Effect.npmPkgFix)) = true) := by
  refine ⟨fun hb => ?_, fun hb hd => ?_, fun hb hd hv => ?_⟩
  · have hpre := pre_eq_badbranch env initSt hb
    have hsteps : runSteps env kind = preVerification env initSt :=
      runSteps_of_pre_fail env kind (by rw [hpre]; rfl)
    have herr : (runSteps env kind).err =
        some ("Rama actual es '" ++ env.branch ++ "'. Debe estar en 'master' o 'main'") := by
      rw [hsteps, hpre]
    refine ⟨by rw [run_err_eq, herr]; rfl, ?_⟩
    rw [run_eq_fail env kind _ herr, hsteps, hpre]
    simp [generateReport, Effect.isMutation]
  · have hpre := pre_eq_dirty env initSt hb hd
    have hsteps : runSteps env kind = preVerification env initSt :=
      runSteps_of_pre_fail env kind (by rw [hpre]; rfl)
    have herr : (runSteps env kind).err =
        some "Hay cambios sin añadir. Por favor, añade o descarta los cambios antes de continuar." := by
      rw [hsteps, hpre]
    refine ⟨by rw [run_err_eq, herr]; rfl, ?_⟩
    rw [run_eq_fail env kind _ herr, hsteps, hpre]
    simp [generateReport, Effect.isMutation]
  · have hpre := pre_eq_badver env initSt hb hd hv
    have hsteps : runSteps env kind = preVerification env initSt :=
      runSteps_of_pre_fail env kind (by rw [hpre]; rfl)
    have herr : (runSteps env kind).err =
        some ("Versión '" ++ env.manifestVersion ++ "' no sigue formato semver X.Y.Z") := by
      rw [hsteps, hpre]
    refine ⟨by rw [run_err_eq, herr]; rfl, ?_⟩
    rw [run_eq_fail env kind _ herr, hsteps, hpre]
    simp [generateReport, Effect.isMutation]

/-- Witness for C4 at a concrete wrong-branch state. -/
theorem preverification_failures_abort_before_mutations_witness :
    (run { baseEnv with branch := "feature-x" } "patch").err.isSome = true ∧
    (run { baseEnv with branch := "feature-x" } "patch").trace.all
      (fun e => !e.isMutation) = true :=
  (preverification_failures_abort_before_mutations { baseEnv with branch := "feature-x" }
    "patch").1 (by decide)

/-- Counterexample for C4 as stated: with a malformed manifest version the
run hard-fails during pre-verification, yet the mutating manifest
normalization command has already been executed at the point of failure. -/
theorem bad_version_fails_after_manifest_normalization :
    (run { baseEnv with manifestVersion := "1.0" } "patch").err.isSome = true ∧
    Effect.npmPkgFix ∈ (run { baseEnv with manifestVersion := "1.0" } "patch").trace ∧
    Effect.isMutation Effect.npmPkgFix = true := by
  decide

/-- C5: evaluating the pipeline on a state whose target version tag already
exists: the version is reused unchanged and no tag is created, but the
changelog is rewritten with a second section for the same version and a
second `chore(release)` commit for that version is created, contradicting
the no-duplicate-commit idempotence property. -/
theorem rerun_keeps_version_but_creates_second_release_commit :
    ("v" ++ rerunEnv.manifestVersion) ∈ rerunEnv.tags ∧
    (run rerunEnv "patch").st.version = some "1.0.8" ∧
    (run rerunEnv "patch").trace.all (fun e => !e.isTagCreate) = true ∧
    Effect.gitCommit "chore(release): v1.0.8" ∈ (run rerunEnv "patch").trace ∧
    (run rerunEnv "patch").trace.any
      (fun e =>
        match e with
        | .changelogWrite c =>
          containsStr c "## [1.0.8] - 2026-10-11" && containsStr c "## [1.0.8] - 2025-09-18"
        | _ => false) = true := by
  decide

/-- Counterexample for C2 as stated: version 1.0.0, no tag v1.0.0, release
kind patch — but the tag v1.0.1 happens to exist already, so the
commit-and-tag step skips tag creation and no new annotated tag v1.0.1 is
created. -/
theorem scenario_patch_preexisting_next_tag_skips_tag_creation :
    ({ baseEnv with tags := ["v1.0.1"] } : Env).manifestVersion = "1.0.0" ∧
    "v1.0.0" ∉ ({ baseEnv with tags := ["v1.0.1"] } : Env).tags ∧
    (run { baseEnv with tags := ["v1.0.1"] } "patch").st.version = some "1.0.1" ∧
    Effect.gitTagCreate "v1.0.1" ∉ (run { baseEnv with tags := ["v1.0.1"] } "patch").trace := by
  decide

/-- Counterexample for C10 as stated: at the entry point an empty-string
argument, which is outside {patch, minor, major}, is not passed through —
JavaScript's falsy default makes it `patch`, so absence is not the only way
to get the default. -/
theorem empty_argument_also_defaults_to_patch :
    ¬ ("" = "patch" ∨ "" = "minor" ∨ "" = "major") ∧
    entryReleaseType (some "") = "patch" ∧
    entryReleaseType none = "patch" := by
  decide

end Release

namespace Release

/-- C3 (amended): when the prior changelog has a version heading that is
not on the very first line (there is a leading title block), the updated
content is exactly the title block, the separator newline, the new entry,
and then every original version section verbatim in order; the second
conjunct certifies that the title block and the sections reassemble the
original content, so nothing is deleted or reordered. -/
theorem changelog_insertion_preserves_history (C E : String) (i : Nat)
    (hfind : (splitLines C).findIdx? isVersionHeading = some i) (hi : 0 < i) :
    insertEntry C E =
      joinWith "\n" ((splitLines C).take i) ++ "\n" ++ E ++
        joinWith "\n" ((splitLines C).drop i) ∧
    C = joinWith "\n" ((splitLines C).take i) ++ "\n" ++ joinWith "\n" ((splitLines C).drop i) := by
  have hlt : i < (splitLines C).length := findIdxq_lt_length _ _ _ hfind
  constructor
  · unfold insertEntry insertIdx
    rw [hfind]
  · rw [joinWith_take_drop (splitLines C) i hi hlt, joinWith_splitLines]

/-- Witness for C3 at a concrete changelog whose first version heading is
the third line. -/
theorem changelog_insertion_preserves_history_witness :
    insertEntry "# Changelog\n\n## [1.0.0] - 2025-01-01\n- inicio" "NUEVA" =
      joinWith "\n"
          ((splitLines "# Changelog\n\n## [1.0.0] - 2025-01-01\n- inicio").take 2) ++ "\n" ++
        "NUEVA" ++
        joinWith "\n"
          ((splitLines "# Changelog\n\n## [1.0.0] - 2025-01-01\n- inicio").drop 2) ∧
    "# Changelog\n\n## [1.0.0] - 2025-01-01\n- inicio" =
      joinWith "\n"
          ((splitLines "# Changelog\n\n## [1.0.0] - 2025-01-01\n- inicio").take 2) ++ "\n" ++
        joinWith "\n"
          ((splitLines "# Changelog\n\n## [1.0.0] - 2025-01-01\n- inicio").drop 2) :=
  changelog_insertion_preserves_history "# Changelog\n\n## [1.0.0] - 2025-01-01\n- inicio"
    "NUEVA" 2 (by decide) (by decide)

/-- Counterexample for C3 as stated: when the first line of the prior
content is itself a version heading (empty title block), the update is not
`title block + new entry + sections` — an extra newline is prepended before
the new entry. -/
theorem changelog_heading_on_first_line_gets_extra_newline :
    (splitLines "## [1.0.0] - 2025-01-01\n- inicio").findIdx? isVersionHeading = some 0 ∧
    insertEntry "## [1.0.0] - 2025-01-01\n- inicio" "NUEVA" ≠
      joinWith "\n"
          ((splitLines "## [1.0.0] - 2025-01-01\n- inicio").take
            (insertIdx "## [1.0.0] - 2025-01-01\n- inicio")) ++
        "NUEVA" ++
        joinWith "\n"
          ((splitLines "## [1.0.0] - 2025-01-01\n- inicio").drop
            (insertIdx "## [1.0.0] - 2025-01-01\n- inicio")) := by
  decide

end Release

namespace Release

/-- C10 (amended): the script performs no validation of the release kind:
the entry point defaults to `patch` for an absent (or, by JavaScript
falsiness, empty) argument and passes every other string through unchanged,
and a run whose pre-verification, install and build succeed against a
state with no tag for the current version reaches the versioning step and
splices the kind string verbatim into the version-bump command. -/
theorem release_kind_unvalidated_passed_verbatim (env : Env) (kind : String)
    (hb : env.branch = "master" ∨ env.branch = "main")
    (hd : env.dirtyAtStart = false)
    (hv : semverOk env.manifestVersion = true)
    (hci : env.npmCiOk = true)
    (hbld : env.hasBuildScript = true → env.buildOk = true)
    (htag : ("v" ++ env.manifestVersion) ∉ env.tags) :
    entryReleaseType none = "patch" ∧
    (∀ s : String, s ≠ "" → entryReleaseType (some s) = s) ∧
    Effect.npmVersionCmd ("npm version " ++ kind ++ " --no-git-tag-version") ∈
      (run env kind).trace := by
  refine ⟨rfl, fun s hs => by simp [entryReleaseType, hs], ?_⟩
  have hpre := pre_eq_ok env initSt hb hd hv
  apply run_mem_steps
  unfold runSteps
  apply bindStep_mem_tail (by rw [hpre])
  unfold stepsFrom2
  apply bindStep_mem_tail (deps_err_none env _ hci)
  unfold stepsFrom3
  apply bindStep_mem_tail (build_err_none env _ hbld)
  unfold stepsFrom4
  exact bindStep_mem_left (vers_cmd_mem env kind _ htag)

/-- Witness for C10: a nonsense release kind reaches the version-bump
command verbatim. -/
theorem release_kind_unvalidated_passed_verbatim_witness :
    entryReleaseType none = "patch" ∧
    ("cualquiercosa" ≠ "" → entryReleaseType (some "cualquiercosa") = "cualquiercosa") ∧
    Effect.npmVersionCmd "npm version cualquiercosa --no-git-tag-version" ∈
      (run baseEnv "cualquiercosa").trace := by
  have h := release_kind_unvalidated_passed_verbatim baseEnv "cualquiercosa"
    (Or.inl rfl) rfl (by decide) rfl (by decide) (by decide)
  exact ⟨h.1, fun _ => h.2.1 "cualquiercosa" (by decide), h.2.2⟩

end Release

namespace Release

lemma deps_warn_added (env : Env) (s : St) (hci : env.npmCiOk = true)
    (htest : env.npmTestOk = false) :
    "Paquete sin tests configurados - continuando con advertencia" ∈
      ((dependenciesAndTests env s).st).warnings := by
  unfold dependenciesAndTests
  rw [if_neg (by simp [hci]), if_neg (by simp [htest])]
  simp

lemma from5_tag_mem (env : Env) (s : St) (hver : s.version = some "1.0.1")
    (hcm : env.commitOk = true) (h1 : ("v1.0.1" : String) ∉ env.tags) :
    Effect.gitTagCreate "v1.0.1" ∈ (stepsFrom5 env s).trace := by
  unfold stepsFrom5
  apply bindStep_mem_tail (chl_err_none env s)
  unfold stepsFrom6
  apply bindStep_mem_left
  have hs5 : ((updateChangelog env s).st).version = some "1.0.1" := by
    rw [chl_ver, hver]
  have heq : ("v" ++ optStr ((updateChangelog env s).st).version) = "v1.0.1" := by
    rw [hs5]; decide
  rw [← heq]
  exact commit_tag_mem env _ (chl_tree env s) hcm (by rw [heq]; exact h1)

lemma from5_changelog_mem (env : Env) (s : St) (hver : s.version = some "1.0.1") :
    ∃ pre post : String,
      Effect.changelogWrite (pre ++ ("## [1.0.1] - " ++ env.today) ++ post) ∈
        (stepsFrom5 env s).trace := by
  refine ⟨joinWith "\n" ((splitLines env.changelog).take (insertIdx env.changelog)) ++ "\n",
    ("\n\n### Changed\n" ++
        (if joinWith "\n" (mkChanges env) = "" then "- Release automático"
          else joinWith "\n" (mkChanges env)) ++ "\n\n") ++
      joinWith "\n" ((splitLines env.changelog).drop (insertIdx env.changelog)), ?_⟩
  unfold stepsFrom5
  apply bindStep_mem_left
  have hcontent :
      (joinWith "\n" ((splitLines env.changelog).take (insertIdx env.changelog)) ++ "\n") ++
          ("## [1.0.1] - " ++ env.today) ++
          (("\n\n### Changed\n" ++
              (if joinWith "\n" (mkChanges env) = "" then "- Release automático"
                else joinWith "\n" (mkChanges env)) ++ "\n\n") ++
            joinWith "\n" ((splitLines env.changelog).drop (insertIdx env.changelog))) =
        insertEntry env.changelog
          (newChangelogEntry (optStr s.version) env.today (mkChanges env)) := by
    rw [hver]
    have hlit : ("## [" ++ "1.0.1" ++ "] - " : String) = "## [1.0.1] - " := by decide
    unfold insertEntry newChangelogEntry optStr
    rw [hlit]
    apply String.ext
    simp
  rw [hcontent]
  exact chl_mem_write env s

end Release

namespace Release

/-- C2 (amended): manifest version 1.0.0, no tag v1.0.0 and no tag v1.0.1,
release kind patch, with the pre-verification, install, build and commit
commands succeeding: the versioning step bumps to 1.0.1, the commit-and-tag
step creates the annotated tag v1.0.1, and the changelog gains a section
headed `[1.0.1] - <today>`. -/
theorem scenario_patch_bumps_version_tag_and_changelog (env : Env)
    (hb : env.branch = "master" ∨ env.branch = "main")
    (hd : env.dirtyAtStart = false)
    (hv : env.manifestVersion = "1.0.0")
    (h0 : ("v1.0.0" : String) ∉ env.tags)
    (h1 : ("v1.0.1" : String) ∉ env.tags)
    (hci : env.npmCiOk = true)
    (hbld : env.hasBuildScript = true → env.buildOk = true)
    (hcm : env.commitOk = true) :
    (run env "patch").st.version = some "1.0.1" ∧
    Effect.gitTagCreate "v1.0.1" ∈ (run env "patch").trace ∧
    (∃ pre post : String,
      Effect.changelogWrite (pre ++ ("## [1.0.1] - " ++ env.today) ++ post) ∈
        (run env "patch").trace) := by
  have hsem : semverOk env.manifestVersion = true := by rw [hv]; decide
  have hpre := pre_eq_ok env initSt hb hd hsem
  have hpreErr : (preVerification env initSt).err = none := by rw [hpre]
  have htag0 : ("v" ++ env.manifestVersion) ∉ env.tags := by
    rw [hv, show ("v" ++ "1.0.0" : String) = "v1.0.0" from by decide]
    exact h0
  have hbump : npmVersionResult env.manifestVersion "patch" = some "1.0.1" := by
    rw [hv]; decide
  have hversEq := fun s => vers_eq_bump env "patch" s "1.0.1" htag0 hbump
  have hversErr : ∀ s, (versioning env "patch" s).err = none := fun s => by rw [hversEq s]
  have hversSt : ∀ s, ((versioning env "patch" s).st).version = some "1.0.1" := fun s => by
    rw [hversEq s]
  refine ⟨?_, ?_, ?_⟩
  · rw [run_version_eq]
    unfold runSteps
    rw [bindStep_st_ok hpreErr]
    unfold stepsFrom2
    rw [bindStep_st_ok (deps_err_none env _ hci)]
    unfold stepsFrom3
    rw [bindStep_st_ok (build_err_none env _ hbld)]
    unfold stepsFrom4
    rw [bindStep_st_ok (hversErr _)]
    rw [from5_ver]
    exact hversSt _
  · apply run_mem_steps
    unfold runSteps
    apply bindStep_mem_tail hpreErr
    unfold stepsFrom2
    apply bindStep_mem_tail (deps_err_none env _ hci)
    unfold stepsFrom3
    apply bindStep_mem_tail (build_err_none env _ hbld)
    unfold stepsFrom4
    apply bindStep_mem_tail (hversErr _)
    exact from5_tag_mem env _ (hversSt _) hcm h1
  · obtain ⟨p, q, hm⟩ := from5_changelog_mem env
      ((versioning env "patch"
        ((build env ((dependenciesAndTests env (preVerification env initSt).st).st)).st)).st)
      (hversSt _)
    refine ⟨p, q, ?_⟩
    apply run_mem_steps
    unfold runSteps
    apply bindStep_mem_tail hpreErr
    unfold stepsFrom2
    apply bindStep_mem_tail (deps_err_none env _ hci)
    unfold stepsFrom3
    apply bindStep_mem_tail (build_err_none env _ hbld)
    unfold stepsFrom4
    apply bindStep_mem_tail (hversErr _)
    exact hm

/-- Witness for C2 at the concrete baseline state. -/
theorem scenario_patch_bumps_version_tag_and_changelog_witness :
    (run baseEnv "patch").st.version = some "1.0.1" ∧
    Effect.gitTagCreate "v1.0.1" ∈ (run baseEnv "patch").trace ∧
    (∃ pre post : String,
      Effect.changelogWrite (pre ++ ("## [1.0.1] - " ++ baseEnv.today) ++ post) ∈
        (run baseEnv "patch").trace) :=
  scenario_patch_bumps_version_tag_and_changelog baseEnv (Or.inl rfl) rfl rfl
    (by decide) (by decide) rfl (by decide) rfl

end Release

namespace Release

/-- C8: a failing test command does not abort the pipeline: the run still
executes the build step, the versioning step, and the npm publish attempt,
and the final report issues list contains the tests-not-configured warning
entry. -/
theorem test_failure_is_soft_run_still_publishes (env : Env)
    (hb : env.branch = "master" ∨ env.branch = "main")
    (hd : env.dirtyAtStart = false)
    (hv : semverOk env.manifestVersion = true)
    (hci : env.npmCiOk = true)
    (htest : env.npmTestOk = false)
    (hbld : env.hasBuildScript = true → env.buildOk = true)
    (hcm : env.commitOk = true)
    (hp1 : env.pushBranchOk = true)
    (hp2 : env.pushTagsOk = true)
    (ht : env.npmToken.isSome = true) :
    Effect.stepBanner 3 ∈ (run env "patch").trace ∧
    Effect.stepBanner 4 ∈ (run env "patch").trace ∧
    Effect.npmPublish ∈ (run env "patch").trace ∧
    "Paquete sin tests configurados - continuando con advertencia" ∈
      (run env "patch").st.issues := by
  have hpre := pre_eq_ok env initSt hb hd hv
  have hpreErr : (preVerification env initSt).err = none := by rw [hpre]
  have hversErr : ∀ s : St, (versioning env "patch" s).err = none := fun s =>
    vers_err_none env s hv
  refine ⟨?_, ?_, ?_, ?_⟩
  · apply run_mem_steps
    unfold runSteps
    apply bindStep_mem_tail hpreErr
    unfold stepsFrom2
    apply bindStep_mem_tail (deps_err_none env _ hci)
    unfold stepsFrom3
    exact bindStep_mem_left (build_banner_mem env _)
  · apply run_mem_steps
    unfold runSteps
    apply bindStep_mem_tail hpreErr
    unfold stepsFrom2
    apply bindStep_mem_tail (deps_err_none env _ hci)
    unfold stepsFrom3
    apply bindStep_mem_tail (build_err_none env _ hbld)
    unfold stepsFrom4
    exact bindStep_mem_left (vers_banner_mem env "patch" _)
  · apply run_mem_steps
    unfold runSteps
    apply bindStep_mem_tail hpreErr
    unfold stepsFrom2
    apply bindStep_mem_tail (deps_err_none env _ hci)
    unfold stepsFrom3
    apply bindStep_mem_tail (build_err_none env _ hbld)
    unfold stepsFrom4
    apply bindStep_mem_tail (hversErr _)
    unfold stepsFrom5
    apply bindStep_mem_tail (chl_err_none env _)
    unfold stepsFrom6
    apply bindStep_mem_tail (commit_err_none env _ hcm)
    unfold stepsFrom7
    apply bindStep_mem_tail (push_err_none env _ hp1 hp2)
    unfold stepsFrom8
    exact bindStep_mem_left (pubn_mem env _ ht)
  · apply run_warning_in_issues
    unfold runSteps
    rw [bindStep_st_ok hpreErr]
    unfold stepsFrom2
    rw [bindStep_st_ok (deps_err_none env _ hci)]
    exact from3_warn env "patch" _ (deps_warn_added env _ hci htest)

/-- Witness for C8 at the concrete baseline state with failing tests. -/
theorem test_failure_is_soft_run_still_publishes_witness :
    Effect.stepBanner 3 ∈ (run { baseEnv with npmTestOk := false } "patch").trace ∧
    Effect.stepBanner 4 ∈ (run { baseEnv with npmTestOk := false } "patch").trace ∧
    Effect.npmPublish ∈ (run { baseEnv with npmTestOk := false } "patch").trace ∧
    "Paquete sin tests configurados - continuando con advertencia" ∈
      (run { baseEnv with npmTestOk := false } "patch").st.issues :=
  test_failure_is_soft_run_still_publishes { baseEnv with npmTestOk := false }
    (Or.inl rfl) rfl (by decide) rfl rfl (by decide) rfl rfl rfl rfl

end Release
